import Mathlib

/-!
Verification of the export-monitor integration's planning and control engine.

The Python source is shallowly embedded over `ℚ`:

* energies (kWh), powers (kW / W) and percentages are rationals;
* timestamps are rationals counting minutes since an epoch, in UTC;
  `dayOf t` is the calendar day and `timeOfDay t` the minute-of-day, so
  `datetime.date()` / `datetime.time()` become arithmetic (the host's local
  timezone is modelled as UTC, i.e. `astimezone` is the identity);
* `HH:MM` window strings are modelled as their parsed minute-of-day value;
* forecast periods are modelled after ISO-timestamp parsing, i.e. as records
  with rational `from`/`to` instants (the source skips unparsable periods;
  parse failures of well-formed records are not in scope of the claims);
* Python's `round(x, n)` (round half to even) is `pyRoundTo n`;
* `list.sort(key=..., reverse=...)` (a stable sort) is `List.mergeSort`
  with the corresponding total relation.
-/

/-- One step of Python `round`: round a rational to the nearest integer,
halves to the even neighbour (CPython's banker's rounding). -/
def pyRoundInt (q : ℚ) : ℤ :=
  let f : ℤ := q.num.fdiv (q.den : ℤ)
  let frac := q - f
  if frac < 1/2 then f
  else if 1/2 < frac then f + 1
  else if f % 2 = 0 then f else f + 1

/-- Python `round(q, n)` for nonnegative `n`. -/
def pyRoundTo (n : ℕ) (q : ℚ) : ℚ :=
  (pyRoundInt (q * 10 ^ n) : ℚ) / 10 ^ n

/-- The integer produced by `pyRoundInt` is `⌊q⌋` or `⌊q⌋ + 1`. -/
theorem pyRoundInt_cases (q : ℚ) :
    pyRoundInt q = q.num.fdiv (q.den : ℤ) ∨ pyRoundInt q = q.num.fdiv (q.den : ℤ) + 1 := by
  unfold pyRoundInt
  dsimp only
  split
  · exact Or.inl rfl
  · split
    · exact Or.inr rfl
    · split
      · exact Or.inl rfl
      · exact Or.inr rfl

/-- The computable floor used in `pyRoundInt` agrees with `Int.floor`. -/
theorem num_fdiv_den_eq_floor (q : ℚ) : q.num.fdiv (q.den : ℤ) = ⌊q⌋ := by
  rw [Int.fdiv_eq_ediv _ (Int.ofNat_nonneg q.den), Rat.floor_def]

/-- The rounding `pyRoundInt` never overshoots by more than a half. -/
theorem pyRoundInt_le (q : ℚ) : (pyRoundInt q : ℚ) ≤ q + 1/2 := by
  rcases pyRoundInt_cases q with h | h <;> rw [h, num_fdiv_den_eq_floor]
  · have := Int.floor_le q
    linarith
  · by_cases hf : q - (⌊q⌋ : ℚ) < 1/2
    · exfalso
      unfold pyRoundInt at h
      dsimp only at h
      rw [num_fdiv_den_eq_floor] at h
      rw [if_pos hf] at h
      omega
    · push_cast
      push_neg at hf
      linarith

/-- The rounding `pyRoundTo n` overshoots by at most half a unit in the last kept digit. -/
theorem pyRoundTo_le (n : ℕ) (q : ℚ) : pyRoundTo n q ≤ q + 1 / (2 * 10 ^ n) := by
  unfold pyRoundTo
  have h := pyRoundInt_le (q * 10 ^ n)
  have hpow : (0:ℚ) < 10 ^ n := by positivity
  rw [div_le_iff₀ hpow]
  calc (pyRoundInt (q * 10 ^ n) : ℚ) ≤ q * 10 ^ n + 1/2 := h
    _ = (q + 1 / (2 * 10 ^ n)) * 10 ^ n := by field_simp; ring

/-!
## Headroom calculator

`ExportMonitorCoordinator._calculate_export_headroom` in
`coordinator.py`: returns `(export_cap, headroom)`.
-/

/-- Embedding of `_calculate_export_headroom(pv_energy_today,
solcast_total_today, grid_feed_today, safety_margin_kwh)`. -/
def calculate_export_headroom (pv_energy_today solcast_total_today
    grid_feed_today safety_margin_kwh : ℚ) : ℚ × ℚ :=
  let export_cap := max pv_energy_today solcast_total_today + safety_margin_kwh
  let headroom := export_cap - grid_feed_today
  (export_cap, headroom)

/-!
## Duration calculator

`ExportMonitorCoordinator._calculate_discharge_duration` in `coordinator.py`.
The Python default for `background_load_buffer` is `0.1`; the buffer is an
explicit argument here.
-/

/-- Embedding of `_calculate_discharge_duration(headroom_kwh,
target_export_w, background_load_buffer)`. -/
def calculate_discharge_duration (headroom_kwh target_export_w
    background_load_buffer : ℚ) : ℚ :=
  if target_export_w ≤ 0 ∨ headroom_kwh ≤ 0 then 0
  else
    let target_export_kw := target_export_w / 1000
    let base_duration_hours := headroom_kwh / target_export_kw
    let duration_with_buffer_hours := base_duration_hours * (1 + background_load_buffer)
    let duration_minutes := duration_with_buffer_hours * 60
    pyRoundTo 1 duration_minutes

/-!
## Time model

Timestamps are rational minutes since an epoch (UTC). `dayOf` is the
calendar date (`datetime.date()`), `timeOfDay` the minute-of-day
(`datetime.time()`, with the host local timezone modelled as UTC).
-/

/-- Calendar day of a timestamp (minutes since epoch). -/
def dayOf (t : ℚ) : ℤ := ⌊t / 1440⌋

/-- Minute-of-day of a timestamp. -/
def timeOfDay (t : ℚ) : ℚ := t - 1440 * dayOf t

/-- A forecast period as consumed by the planners: the `from`/`to` ISO
timestamps already parsed to instants, with the `intensity.forecast` value
and `intensity.index` label. -/
structure RawPeriod where
  fromTime : ℚ
  toTime : ℚ
  ci_value : ℚ
  ci_index : String
deriving DecidableEq

/-- A filtered period inside a planner (`future_periods` entries). -/
structure FuturePeriod where
  fromTime : ℚ
  toTime : ℚ
  duration_minutes : ℚ
  ci_value : ℚ
  ci_index : String
deriving DecidableEq

/-- A discharge plan window as emitted by `_generate_today_plan` /
`_generate_tomorrow_plan`. -/
structure PlanWindow where
  fromTime : ℚ
  toTime : ℚ
  duration_minutes : ℚ
  energy_kwh : ℚ
  ci_value : ℚ
  ci_index : String
deriving DecidableEq

/-- A charge plan window as emitted by `_generate_charge_plan_today` /
`_generate_next_charge_session` (keys `period_start`, `period_end`,
`energy_kwh`, `ci_value`). -/
structure ChargeWindow where
  period_start : ℚ
  period_end : ℚ
  energy_kwh : ℚ
  ci_value : ℚ
deriving DecidableEq

/-- A filtered period inside the charge planners. -/
structure ChargePeriod where
  fromTime : ℚ
  toTime : ℚ
  ci : ℚ
deriving DecidableEq

/-- The greedy allocation loop shared by `_generate_today_plan`,
`_generate_tomorrow_plan` and `_find_highest_ci_periods`: walk the sorted
periods, allocate `min(period_capacity, remaining)` and stop once the
remaining budget is exhausted. -/
def greedy_discharge (discharge_power_kw : ℚ) : ℚ → List FuturePeriod → List PlanWindow
  | _, [] => []
  | remaining_headroom, period :: rest =>
    if remaining_headroom ≤ 0 then []
    else
      let period_capacity_kwh := discharge_power_kw * (period.duration_minutes / 60)
      let export_energy := min period_capacity_kwh remaining_headroom
      let export_duration := export_energy / discharge_power_kw * 60
      ⟨period.fromTime, period.toTime, export_duration, export_energy,
        period.ci_value, period.ci_index⟩ ::
        greedy_discharge discharge_power_kw (remaining_headroom - export_energy) rest

/-- The greedy allocation loop shared by the charge planners; note the
emitted `energy_kwh` is `round(allocated_energy, 3)` while the remaining
budget is decremented by the unrounded allocation. -/
def greedy_charge (charge_power_kw : ℚ) : ℚ → List ChargePeriod → List ChargeWindow
  | _, [] => []
  | remaining_energy, period :: rest =>
    if remaining_energy ≤ 0 then []
    else
      let period_duration_hours := (period.toTime - period.fromTime) / 60
      let period_energy := charge_power_kw * period_duration_hours
      let allocated_energy := min period_energy remaining_energy
      ⟨period.fromTime, period.toTime, pyRoundTo 3 allocated_energy, period.ci⟩ ::
        greedy_charge charge_power_kw (remaining_energy - allocated_energy) rest

/-- Embedding of `_generate_today_plan(periods, headroom_kwh,
discharge_power_kw, solar_generated, solar_predicted, export_window_start,
export_window_end)` at wall-clock instant `now`; the export window limits
are the parsed `HH:MM` times as minute-of-day values. -/
def generate_today_plan (now : ℚ) (periods : List RawPeriod)
    (headroom_kwh discharge_power_kw solar_generated solar_predicted : ℚ)
    (export_window_start export_window_end : ℚ) : List PlanWindow :=
  if periods = [] ∨ headroom_kwh ≤ 0 ∨ discharge_power_kw ≤ 0 then []
  else
    let today_energy_budget := max solar_generated solar_predicted
    let future_periods := periods.filterMap (fun period =>
      if now < period.toTime ∧ dayOf period.fromTime = dayOf now then
        let effective_from := max period.fromTime now
        if timeOfDay effective_from ≤ export_window_end ∧
            export_window_start ≤ timeOfDay period.toTime then
          some ⟨effective_from, period.toTime, period.toTime - effective_from,
            period.ci_value, period.ci_index⟩
        else none
      else none)
    let sorted := future_periods.mergeSort (fun a b => decide (b.ci_value ≤ a.ci_value))
    greedy_discharge discharge_power_kw (min headroom_kwh today_energy_budget) sorted

/-- Embedding of `_generate_tomorrow_plan(periods, solar_predicted_tomorrow,
discharge_power_kw, export_window_start, export_window_end)`. -/
def generate_tomorrow_plan (now : ℚ) (periods : List RawPeriod)
    (solar_predicted_tomorrow discharge_power_kw : ℚ)
    (export_window_start export_window_end : ℚ) : List PlanWindow :=
  if periods = [] ∨ solar_predicted_tomorrow ≤ 0 ∨ discharge_power_kw ≤ 0 then []
  else
    let tomorrow := dayOf now + 1
    let future_periods := periods.filterMap (fun period =>
      if dayOf period.fromTime = tomorrow then
        if timeOfDay period.fromTime ≤ export_window_end ∧
            export_window_start ≤ timeOfDay period.toTime then
          some ⟨period.fromTime, period.toTime, period.toTime - period.fromTime,
            period.ci_value, period.ci_index⟩
        else none
      else none)
    let sorted := future_periods.mergeSort (fun a b => decide (b.ci_value ≤ a.ci_value))
    greedy_discharge discharge_power_kw solar_predicted_tomorrow sorted

set_option linter.unusedVariables false in
/-- Embedding of `_generate_charge_plan_today(periods, current_soc,
discharge_cutoff_soc, charge_power_kw, charge_window_start,
charge_window_end, battery_capacity_kwh)`; the charge window limits are the
parsed `HH:MM` times as minute-of-day values. -/
def generate_charge_plan_today (now : ℚ) (periods : List RawPeriod)
    (current_soc discharge_cutoff_soc charge_power_kw : ℚ)
    (charge_window_start charge_window_end : ℚ)
    (battery_capacity_kwh : ℚ) : List ChargeWindow :=
  if periods = [] ∨ charge_power_kw ≤ 0 ∨ battery_capacity_kwh ≤ 0 then []
  else if 100 ≤ current_soc then []
  else
    let soc_to_charge := 100 - current_soc
    let energy_needed_kwh := soc_to_charge / 100 * battery_capacity_kwh
    if energy_needed_kwh ≤ 0 then []
    else
      let filtered := periods.filterMap (fun period =>
        if dayOf period.fromTime = dayOf now then
          let period_start_time := timeOfDay period.fromTime
          let period_end_time := timeOfDay period.toTime
          if charge_window_start ≤ charge_window_end then
            if period_end_time < charge_window_start ∨
                charge_window_end < period_start_time then none
            else some ⟨period.fromTime, period.toTime, period.ci_value⟩
          else
            if period_end_time < charge_window_start ∧
                charge_window_end < period_start_time then none
            else some ⟨period.fromTime, period.toTime, period.ci_value⟩
        else none)
      let sorted := filtered.mergeSort (fun a b => decide (a.ci ≤ b.ci))
      greedy_charge charge_power_kw energy_needed_kwh sorted

/-- Embedding of `_generate_next_charge_session(periods, current_soc,
charge_power_kw, charge_window_start, charge_window_end,
battery_capacity_kwh)`: resolve the next occurrence of the (possibly
overnight) charge window, trim periods to it, sort ascending by intensity
and allocate greedily. -/
def generate_next_charge_session (now : ℚ) (periods : List RawPeriod)
    (current_soc charge_power_kw : ℚ)
    (charge_window_start charge_window_end : ℚ)
    (battery_capacity_kwh : ℚ) : List ChargeWindow :=
  if periods = [] ∨ charge_power_kw ≤ 0 ∨ battery_capacity_kwh ≤ 0 then []
  else if 100 ≤ current_soc then []
  else
    let energy_needed_kwh := (100 - current_soc) / 100 * battery_capacity_kwh
    if energy_needed_kwh ≤ 0 then []
    else
      let current_time := timeOfDay now
      let in_window : Bool :=
        if charge_window_start ≤ charge_window_end then
          decide (charge_window_start ≤ current_time ∧ current_time ≤ charge_window_end)
        else
          decide (charge_window_start ≤ current_time ∨ current_time ≤ charge_window_end)
      let next_window_start :=
        if in_window then now
        else if charge_window_start ≤ charge_window_end then
          if current_time < charge_window_start then
            1440 * (dayOf now : ℚ) + charge_window_start
          else
            1440 * ((dayOf now : ℚ) + 1) + charge_window_start
        else
          if charge_window_end < current_time ∧ current_time < charge_window_start then
            1440 * (dayOf now : ℚ) + charge_window_start
          else if current_time < charge_window_start then
            1440 * (dayOf now : ℚ) + charge_window_start
          else
            1440 * (dayOf now : ℚ) + charge_window_start
      let next_window_end :=
        if charge_window_start ≤ charge_window_end then
          1440 * (dayOf next_window_start : ℚ) + charge_window_end
        else
          1440 * ((dayOf next_window_start : ℚ) + 1) + charge_window_end
      let filtered := periods.filterMap (fun period =>
        if period.toTime < next_window_start ∨ next_window_end < period.fromTime then
          none
        else
          let actual_start := max period.fromTime next_window_start
          let actual_end := min period.toTime next_window_end
          if actual_end ≤ actual_start then none
          else some ⟨actual_start, actual_end, period.ci_value⟩)
      let sorted := filtered.mergeSort (fun a b => decide (a.ci ≤ b.ci))
      greedy_charge charge_power_kw energy_needed_kwh sorted

/-- Total allocated energy of a discharge plan. -/
def sumEnergy (plan : List PlanWindow) : ℚ := (plan.map PlanWindow.energy_kwh).sum

/-!
## Auto-stop decision

`_async_update_data` in `coordinator.py`: the `discharge_complete` /
`should_stop_discharge` logic of one tick. The session fields of the
coordinator relevant here are `_discharge_active`, `_discharge_start_export`
and `_discharge_target_energy`.
-/

/-- Discharge-session state carried across ticks by the coordinator. -/
structure DischargeSession where
  discharge_active : Bool
  discharge_start_export : Option ℚ
  discharge_target_energy : Option ℚ
deriving DecidableEq

/-- Embedding of the `reserve_limit_reached` computation of one tick:
requires a configured reserve sensor, the observe flag, an available
reserve reading and `current_soc < reserve_soc_target`. -/
def reserve_limit_reached (reserve_soc_sensor_configured observe_reserve_soc : Bool)
    (reserve_soc_target : Option ℚ) (current_soc : ℚ) : Bool :=
  if reserve_soc_sensor_configured && observe_reserve_soc then
    match reserve_soc_target with
    | some target => decide (current_soc < target)
    | none => false
  else false

/-- Embedding of the `discharge_complete` computation: Python's
`if self._discharge_target_energy and energy_exported_since_start >= ...`
treats a target of `None` and the float `0.0` alike as falsey. -/
def discharge_complete (session : DischargeSession) (grid_feed_today : ℚ) : Bool :=
  match session.discharge_active, session.discharge_start_export with
  | true, some start_export =>
    let energy_exported_since_start := grid_feed_today - start_export
    match session.discharge_target_energy with
    | some target => decide (target ≠ 0) && decide (target ≤ energy_exported_since_start)
    | none => false
  | _, _ => false

/-- Embedding of the `should_stop_discharge` decision (the `ACTIVE → IDLE`
auto-stop trigger of one tick). -/
def should_stop_discharge (session : DischargeSession) (headroom_kwh grid_feed_today : ℚ)
    (reserve_limit : Bool) : Bool :=
  if session.discharge_active then
    if headroom_kwh ≤ 0 then true
    else if discharge_complete session grid_feed_today then true
    else if reserve_limit then true
    else false
  else false

/-!
## Auto-discharge trigger

`_check_and_trigger_auto_discharge` in `coordinator.py`. Plan windows reach
this routine as dictionaries; the routine reads the keys `period_start`,
`period_end` and `energy_kwh` with `dict.get`. Dictionaries are modelled as
association lists of string keys and string-or-number values;
`datetime.fromisoformat` (which raises on a malformed string) is an
arbitrary partial parse function passed as a parameter. -/

/-- A dictionary value: string or number (all values emitted by the
planners are one of the two). -/
inductive WVal where
  | s (v : String)
  | n (v : ℚ)
deriving DecidableEq

/-- A plan-window dictionary. -/
abbrev WDict := List (String × WVal)

/-- Embedding of `dict.get(key, default)`. -/
def wget (d : WDict) (key : String) (dflt : WVal) : WVal :=
  match d.lookup key with
  | some v => v
  | none => dflt

/-- Python truthiness of a dictionary value (`if not window_start_str`). -/
def WVal.truthy : WVal → Bool
  | .s v => v ≠ ""
  | .n v => v ≠ 0

/-- The dictionary emitted for one window by `_generate_today_plan` (and
`_generate_tomorrow_plan`): keys `from`, `to`, `duration_minutes`,
`energy_kwh`, `ci_value`, `ci_index`. The ISO rendering of the instants is
an arbitrary injection `iso`. -/
def todayWindowDict (iso : ℚ → String) (w : PlanWindow) : WDict :=
  [("from", .s (iso w.fromTime)), ("to", .s (iso w.toTime)),
   ("duration_minutes", .n w.duration_minutes), ("energy_kwh", .n w.energy_kwh),
   ("ci_value", .n w.ci_value), ("ci_index", .s w.ci_index)]

/-- One iteration of the window loop of `_check_and_trigger_auto_discharge`
over the remaining windows; returns the `(window_id, target_energy)` of the
fired window, or `none` when the loop falls through. `parseTs` models
`datetime.fromisoformat` (`none` = raises), `last_window` the coordinator's
`_last_auto_discharge_window` after the midnight reset. -/
def auto_discharge_loop (parseTs : String → Option ℚ) (now : ℚ) (today_str : String)
    (discharge_active : Bool) (last_window : Option String) :
    List WDict → Option (String × ℚ)
  | [] => none
  | window :: rest =>
    let window_start_val := wget window "period_start" (.s "")
    let window_end_val := wget window "period_end" (.s "")
    let window_energy :=
      match wget window "energy_kwh" (.n 0) with
      | .n v => v
      | .s _ => 0
    if ¬ window_start_val.truthy then
      auto_discharge_loop parseTs now today_str discharge_active last_window rest
    else
      match window_start_val, window_end_val with
      | .s start_str, .s end_str =>
        match parseTs start_str, parseTs end_str with
        | some window_start, some _ =>
          let window_id := today_str ++ "_" ++ start_str
          if last_window = some window_id then
            auto_discharge_loop parseTs now today_str discharge_active last_window rest
          else
            let time_until_start := window_start - now
            if -5 ≤ time_until_start ∧ time_until_start ≤ 0 ∧ ¬ discharge_active then
              some (window_id, window_energy)
            else
              auto_discharge_loop parseTs now today_str discharge_active last_window rest
        | _, _ =>
          auto_discharge_loop parseTs now today_str discharge_active last_window rest
      | _, _ =>
        auto_discharge_loop parseTs now today_str discharge_active last_window rest

/-- Substring containment (Python `needle in haystack` on strings). -/
def strContains (haystack needle : String) : Bool :=
  (haystack.splitOn needle).length != 1

/-- Embedding of `_check_and_trigger_auto_discharge(discharge_plan, ...)`:
the midnight reset of `_last_auto_discharge_window` followed by the window
loop. Returns the fired `(window_id, target_energy)`, or `none` when no
window triggers on this tick. -/
def check_and_trigger_auto_discharge (parseTs : String → Option ℚ) (now : ℚ)
    (today_str : String) (discharge_active : Bool) (last_window : Option String)
    (discharge_plan : List WDict) : Option (String × ℚ) :=
  if discharge_plan = [] then none
  else
    let last_window' :=
      match last_window with
      | some s => if s ≠ "" ∧ ¬ strContains s today_str then none else some s
      | none => none
    auto_discharge_loop parseTs now today_str discharge_active last_window' discharge_plan

/-- Total allocated energy of a charge plan. -/
def sumChargeEnergy (plan : List ChargeWindow) : ℚ :=
  (plan.map ChargeWindow.energy_kwh).sum

/-!
## Carbon-intensity forecast parser

`_parse_ci_forecast(sensor_state_str, attributes)` in `coordinator.py`.
JSON documents are modelled by `JVal`; the state-string stage is modelled
by its outcome (`absent` = `None`/empty string, `unparsable` =
`json.loads` raised, `parsed v` = the decoded document).
-/

/-- A JSON value. -/
inductive JVal where
  | null
  | jbool (b : Bool)
  | num (q : ℚ)
  | str (s : String)
  | arr (elems : List JVal)
  | obj (fields : List (String × JVal))

/-- Dictionary lookup on a JSON object's fields. -/
def jlookup (fields : List (String × JVal)) (key : String) : Option JVal :=
  fields.lookup key

/-- Outcome of the `json.loads(sensor_state_str)` stage. -/
inductive StateJson where
  | absent
  | unparsable
  | parsed (v : JVal)

/-- The parser's non-null result: `{"periods": ..., "region": ...}`. -/
structure CIData where
  periods : List JVal
  region : Option JVal

/-- The dict branch of `_parse_ci_forecast` (lines 191-213): requires a
`data` key; accepts a period list directly under it, or nested under
`data.data` (with `.get("data", [])` defaulting to the empty list); rejects
an empty or missing list. -/
def parse_ci_dict (fields : List (String × JVal)) : Option CIData :=
  match jlookup fields "data" with
  | none => none
  | some raw_periods =>
    let periods : Option (List JVal) :=
      match raw_periods with
      | .arr xs => some xs
      | .obj inner =>
        match jlookup inner "data" with
        | some (.arr ys) => some ys
        | some _ => none
        | none => some []
      | _ => none
    match periods with
    | some ps => if ps.isEmpty then none else some ⟨ps, jlookup fields "shortname"⟩
    | none => none

/-- The Python value held by `data` after the `json.loads` stage: a JSON
`null` deserializes to Python `None`, so a state that parses to `null`
yields nothing, exactly like an absent or unparsable state. -/
def stateDoc : StateJson → Option JVal
  | .parsed .null => none
  | .parsed v => some v
  | _ => none

/-- Embedding of `_parse_ci_forecast(sensor_state_str, attributes)`:
prefer JSON in the state; only when that stage yields no document (state
absent, unparsable, or JSON `null`, which loads as Python `None`) and the
attributes dictionary is truthy (present and non-empty), fall back to its
`data` key — a dict is parsed like a state document, a list is returned
directly. -/
def parse_ci_forecast (state : StateJson) (attributes : Option (List (String × JVal))) :
    Option CIData :=
  match stateDoc state, attributes with
  | some (.obj fields), _ => parse_ci_dict fields
  | some _, _ => none
  | none, some attrs =>
    if attrs.isEmpty then none
    else
      match jlookup attrs "data" with
      | some (.obj fields) => parse_ci_dict fields
      | some (.arr xs) => some ⟨xs, jlookup attrs "shortname"⟩
      | _ => none
  | none, none => none

/-!
## Circuit breaker

`CircuitBreaker` in `error_handler.py` (defaults: `failure_threshold = 5`,
`timeout_duration = 60`). Wall-clock instants are rational seconds;
`datetime.now()` at each operation is the operation's explicit time stamp.
-/

/-- Mutable state of a `CircuitBreaker`. -/
structure CBState where
  failure_count : ℕ
  last_failure_time : Option ℚ
  is_open : Bool
deriving DecidableEq

/-- Embedding of `CircuitBreaker.__init__`. -/
def CBState.initial : CBState := ⟨0, none, false⟩

/-- Embedding of `CircuitBreaker.record_success`. -/
def record_success (s : CBState) : CBState :=
  ⟨0, s.last_failure_time, false⟩

/-- Embedding of `CircuitBreaker.record_failure` at instant `now`. -/
def record_failure (failure_threshold : ℕ) (now : ℚ) (s : CBState) : CBState :=
  let count := s.failure_count + 1
  ⟨count, some now, if failure_threshold ≤ count then true else s.is_open⟩

/-- Embedding of `CircuitBreaker.can_attempt` at instant `now`: the returned flag and
the state after the call. -/
def can_attempt (timeout_duration : ℚ) (now : ℚ) (s : CBState) : Bool × CBState :=
  if ¬ s.is_open then (true, s)
  else
    match s.last_failure_time with
    | some t =>
      if timeout_duration < now - t then (true, ⟨0, s.last_failure_time, false⟩)
      else (false, s)
    | none => (false, s)

/-- One recorded operation on a circuit breaker, stamped with its time. -/
inductive CBOp where
  | success
  | failure (now : ℚ)
  | attempt (now : ℚ)

/-- Replay a sequence of operations from a state. -/
def runCB (failure_threshold : ℕ) (timeout_duration : ℚ) : CBState → List CBOp → CBState
  | s, [] => s
  | s, .success :: rest => runCB failure_threshold timeout_duration (record_success s) rest
  | s, .failure t :: rest =>
    runCB failure_threshold timeout_duration (record_failure failure_threshold t s) rest
  | s, .attempt t :: rest =>
    runCB failure_threshold timeout_duration (can_attempt timeout_duration t s).2 rest

/-!
## Stale data detector

`StaleDataDetector` in `error_handler.py` (default `max_age_seconds = 30`).
-/

/-- State of a `StaleDataDetector`. -/
structure StaleDetector where
  max_age_seconds : ℚ
  last_update : Option ℚ
deriving DecidableEq

/-- Embedding of `StaleDataDetector.__init__(max_age_seconds)`. -/
def StaleDetector.fresh (max_age_seconds : ℚ) : StaleDetector :=
  ⟨max_age_seconds, none⟩

/-- Embedding of `StaleDataDetector.record_update` at instant `now`. -/
def record_update (now : ℚ) (d : StaleDetector) : StaleDetector :=
  ⟨d.max_age_seconds, some now⟩

/-- Embedding of `StaleDataDetector.is_stale` at instant `now`. -/
def is_stale (now : ℚ) (d : StaleDetector) : Bool :=
  match d.last_update with
  | none => true
  | some t => decide (d.max_age_seconds < now - t)

/-- Embedding of `StaleDataDetector.get_age_seconds` at instant `now`. -/
def get_age_seconds (now : ℚ) (d : StaleDetector) : Option ℚ :=
  match d.last_update with
  | none => none
  | some t => some (now - t)

/-- C2: for all inputs the headroom calculator returns
`export_cap = max(pv_energy_today, forecast_total_today) + safety_margin` and
`headroom = export_cap - exported_today` with no clamping (headroom may be
negative); in particular `(5.0, 6.0, 4.0, 0.5)` yields `(6.5, 2.5)`, and an
exported total of `10.0` on the same readings yields the negative headroom
`-3.5`. -/
theorem headroom_calculator_spec :
    (∀ pv fc ex m : ℚ,
      calculate_export_headroom pv fc ex m =
        (max pv fc + m, max pv fc + m - ex)) ∧
    calculate_export_headroom 5 6 4 (1/2) = (13/2, 5/2) ∧
    calculate_export_headroom 5 6 10 (1/2) = (13/2, -(7/2)) := by
  refine ⟨fun pv fc ex m => rfl, ?_, ?_⟩ <;>
    simp [calculate_export_headroom] <;> norm_num [max_def]

/-- C3: the duration calculator returns `0` when `power_w ≤ 0` or
`headroom_kwh ≤ 0` and otherwise `(headroom_kwh / (power_w/1000)) * 60 *
(1 + background_load_buffer)` rounded (Python `round`) to one decimal
place; in particular `(2.0, 3000, 0.10)` yields `44.0` minutes. -/
theorem duration_calculator_spec :
    (∀ h p b : ℚ,
      calculate_discharge_duration h p b =
        if p ≤ 0 ∨ h ≤ 0 then 0
        else pyRoundTo 1 (h / (p / 1000) * 60 * (1 + b))) ∧
    calculate_discharge_duration 2 3000 (1/10) = 44 := by
  constructor
  · intro h p b
    unfold calculate_discharge_duration
    split
    · rfl
    · dsimp only
      congr 1
      ring
  · unfold calculate_discharge_duration
    norm_num
    unfold pyRoundTo pyRoundInt
    norm_num

/-- C10: a freshly constructed `StaleDataDetector` reports stale data and a
null age until the first `record_update`. -/
theorem stale_detector_initial_spec :
    (∀ max_age now : ℚ, is_stale now (StaleDetector.fresh max_age) = true) ∧
    (∀ max_age now : ℚ, get_age_seconds now (StaleDetector.fresh max_age) = none) ∧
    (∀ max_age now later : ℚ,
      is_stale later (record_update now (StaleDetector.fresh max_age)) =
        decide (max_age < later - now)) := by
  exact ⟨fun _ _ => rfl, fun _ _ => rfl, fun _ _ _ => rfl⟩

/-- C4 as stated is false: with an active session whose recorded target
energy is `0.0`, the energy exported since start (`5 - 0 = 5`) is at least
the target, yet the tick does not stop the discharge — Python's
`if self._discharge_target_energy` treats the float `0.0` as falsey, so
the target-reached stop never fires for a zero target. -/
theorem auto_stop_zero_target_counterexample :
    should_stop_discharge ⟨true, some 0, some 0⟩ 1 5 false = false ∧
    (0:ℚ) ≤ 5 - 0 ∧ ¬ ((1:ℚ) ≤ 0) := by
  refine ⟨?_, by norm_num, by norm_num⟩
  norm_num [should_stop_discharge, discharge_complete]

/-- C4 amended: at a tick with discharge active, the `ACTIVE → IDLE`
auto-stop fires exactly when headroom is exhausted, or the session recorded
a start export and a *nonzero* target energy that the energy exported since
start has reached, or the reserve-SOC limit is flagged; a target of `0`
(or an unset target or start export) never triggers the target-reached
stop. -/
theorem auto_stop_spec (session : DischargeSession) (headroom_kwh grid_feed_today : ℚ)
    (reserve_limit : Bool) :
    should_stop_discharge session headroom_kwh grid_feed_today reserve_limit = true ↔
      session.discharge_active = true ∧
        (headroom_kwh ≤ 0 ∨
          (∃ start_export target : ℚ,
            session.discharge_start_export = some start_export ∧
            session.discharge_target_energy = some target ∧
            target ≠ 0 ∧ target ≤ grid_feed_today - start_export) ∨
          reserve_limit = true) := by
  obtain ⟨active, start_export, target⟩ := session
  cases active <;> cases start_export <;> cases target <;>
    simp only [should_stop_discharge, discharge_complete, Option.some.injEq] <;>
    split_ifs <;> simp_all

/-- Helper: `can_attempt` either leaves the state unchanged or resets it
to a closed state with a cleared count. -/
theorem can_attempt_snd_cases (timeout_duration now : ℚ) (s : CBState) :
    (can_attempt timeout_duration now s).2 = s ∨
    (can_attempt timeout_duration now s).2 = ⟨0, s.last_failure_time, false⟩ := by
  unfold can_attempt
  split
  · exact Or.inl rfl
  · split
    · split
      · exact Or.inr rfl
      · exact Or.inl rfl
    · exact Or.inl rfl

/-- Helper: the circuit-breaker invariant `is_open → threshold ≤
failure_count` is preserved by every replayed operation. -/
theorem runCB_inv (failure_threshold : ℕ) (timeout_duration : ℚ) :
    ∀ (ops : List CBOp) (s : CBState),
      (s.is_open = true → failure_threshold ≤ s.failure_count) →
      ((runCB failure_threshold timeout_duration s ops).is_open = true →
        failure_threshold ≤ (runCB failure_threshold timeout_duration s ops).failure_count)
  | [], s, hs => hs
  | .success :: rest, s, hs =>
    runCB_inv failure_threshold timeout_duration rest (record_success s) (by
      intro h
      simp [record_success] at h)
  | .failure t :: rest, s, hs =>
    runCB_inv failure_threshold timeout_duration rest (record_failure failure_threshold t s)
      (by
        intro h
        simp only [record_failure] at h ⊢
        split at h
        · omega
        · have := hs h
          omega)
  | .attempt t :: rest, s, hs =>
    runCB_inv failure_threshold timeout_duration rest (can_attempt timeout_duration t s).2
      (by
        intro h
        rcases can_attempt_snd_cases timeout_duration t s with hc | hc <;> rw [hc] at h ⊢
        · exact hs h
        · simp at h)

/-- C8: starting from a fresh breaker, `is_open` can only be true when the
failure count has reached the threshold; while open, `can_attempt` returns
false (leaving the state untouched) until strictly more than
`timeout_duration` has elapsed since the last failure, and then returns
true exactly once, clearing the failure count and closing the breaker so
failures are counted afresh; a closed breaker always permits attempts. -/
theorem circuit_breaker_spec (failure_threshold : ℕ) (timeout_duration : ℚ) :
    (∀ ops : List CBOp,
      (runCB failure_threshold timeout_duration CBState.initial ops).is_open = true →
        failure_threshold ≤
          (runCB failure_threshold timeout_duration CBState.initial ops).failure_count) ∧
    (∀ (now : ℚ) (s : CBState), s.is_open = false →
      can_attempt timeout_duration now s = (true, s)) ∧
    (∀ (now t : ℚ) (s : CBState), s.is_open = true → s.last_failure_time = some t →
      (now - t ≤ timeout_duration → can_attempt timeout_duration now s = (false, s)) ∧
      (timeout_duration < now - t →
        can_attempt timeout_duration now s = (true, ⟨0, some t, false⟩))) := by
  refine ⟨?_, ?_, ?_⟩
  · intro ops
    exact runCB_inv failure_threshold timeout_duration ops CBState.initial (by
      intro h
      simp [CBState.initial] at h)
  · intro now s hs
    unfold can_attempt
    simp [hs]
  · intro now t s hs ht
    constructor
    · intro hle
      unfold can_attempt
      simp only [hs, ht]
      norm_num
      linarith
    · intro hlt
      unfold can_attempt
      simp only [hs, ht]
      norm_num
      linarith

/-- Witness for `circuit_breaker_spec`: after five failures at time 0 the
default breaker (threshold 5, timeout 60 s) is open with count ≥ 5, an
attempt at 30 s is refused, and an attempt at 61 s is allowed and resets
the breaker. -/
theorem circuit_breaker_spec_witness :
    (5 ≤ (runCB 5 60 CBState.initial
        [.failure 0, .failure 0, .failure 0, .failure 0, .failure 0]).failure_count) ∧
    can_attempt 60 30 ⟨5, some 0, true⟩ = (false, ⟨5, some 0, true⟩) ∧
    can_attempt 60 61 ⟨5, some 0, true⟩ = (true, ⟨0, some 0, false⟩) :=
  ⟨(circuit_breaker_spec 5 60).1
      [.failure 0, .failure 0, .failure 0, .failure 0, .failure 0]
      (by simp [runCB, record_failure, CBState.initial]),
   ((circuit_breaker_spec 5 60).2.2 30 0 ⟨5, some 0, true⟩ rfl rfl).1 (by norm_num),
   ((circuit_breaker_spec 5 60).2.2 61 0 ⟨5, some 0, true⟩ rfl rfl).2 (by norm_num)⟩

/-- The period list a parsed forecast dict locates under its `data` key
(directly, or nested under `data.data`); empty when none is found. -/
def dict_period_list (fields : List (String × JVal)) : List JVal :=
  match jlookup fields "data" with
  | some (.arr xs) => xs
  | some (.obj inner) =>
    match jlookup inner "data" with
    | some (.arr ys) => ys
    | _ => []
  | _ => []

/-- Modelled from the amended C7 wording: the period list the parser's
sequential strategy locates. A state document (anything the state parses
to other than JSON `null`, which loads as Python `None`) must itself be a
dict whose `data`/`data.data` yields a non-empty list, and the attributes
are not consulted in that case, even for a non-dict document; otherwise —
state absent, unparsable or JSON `null` — a non-empty attributes dict is
consulted, where a dict under `data` is treated like a state document and
a list under `data` is accepted as-is, even when empty. -/
def located_periods (state : StateJson) (attributes : Option (List (String × JVal))) :
    Option (List JVal) :=
  match stateDoc state with
  | some (.obj fields) =>
    if (dict_period_list fields).isEmpty then none else some (dict_period_list fields)
  | some _ => none
  | none =>
    match attributes with
    | some attrs =>
      if attrs.isEmpty then none
      else
        match jlookup attrs "data" with
        | some (.obj fields) =>
          if (dict_period_list fields).isEmpty then none
          else some (dict_period_list fields)
        | some (.arr xs) => some xs
        | _ => none
    | none => none

/-- Helper: the dict branch of the parser succeeds exactly on a non-empty
located list, and returns that list. -/
theorem parse_ci_dict_eq (fields : List (String × JVal)) :
    (parse_ci_dict fields).map CIData.periods =
      (if (dict_period_list fields).isEmpty then none
       else some (dict_period_list fields)) := by
  unfold parse_ci_dict dict_period_list
  cases h : jlookup fields "data" with
  | none => simp
  | some v =>
    cases v with
    | arr xs => cases xs <;> simp
    | obj inner =>
      cases h2 : jlookup inner "data" with
      | none => simp [h2]
      | some w =>
        cases w with
        | arr ys => cases ys <;> simp [h2]
        | obj o => simp [h2]
        | null => simp [h2]
        | jbool b => simp [h2]
        | num q => simp [h2]
        | str s => simp [h2]
    | null => simp
    | jbool b => simp
    | num q => simp
    | str s => simp

/-- C7 as stated is false: with no state payload and the attributes
`{"data": []}` the parser returns a non-null result whose period list is
empty — the list-under-attributes branch returns the list as-is with no
emptiness check, although the claim demands that a non-null result always
carry a non-empty period list. -/
theorem ci_parser_counterexample :
    parse_ci_forecast .absent (some [("data", JVal.arr [])]) = some ⟨[], none⟩ ∧
    ([] : List JVal).isEmpty = true := ⟨rfl, rfl⟩

/-- Helper: when the `json.loads` stage yields no document (state absent,
unparsable, or JSON `null`), the parser consults the attributes fallback,
whose result is characterized by `located_periods`. -/
theorem ci_fallback_aux (state : StateJson) (hstate : stateDoc state = none)
    (attributes : Option (List (String × JVal))) :
    ((parse_ci_forecast state attributes).map CIData.periods =
      located_periods state attributes) ∧
    (∀ r, parse_ci_forecast state attributes = some r → r.periods = [] →
      stateDoc state = none ∧ ∃ attrs, attributes = some attrs ∧
        jlookup attrs "data" = some (.arr [])) := by
  unfold parse_ci_forecast located_periods
  rw [hstate]
  cases attributes with
  | none => exact ⟨rfl, by intro r hr; simp at hr⟩
  | some attrs =>
    dsimp only
    by_cases hemp : attrs.isEmpty
    · rw [if_pos hemp, if_pos hemp]
      exact ⟨rfl, by intro r hr; simp at hr⟩
    · rw [if_neg hemp, if_neg hemp]
      cases hl : jlookup attrs "data" with
      | none => exact ⟨rfl, by intro r hr; simp at hr⟩
      | some v =>
        cases v with
        | obj fields =>
          constructor
          · rw [parse_ci_dict_eq]
          · intro r hr hempty
            exfalso
            have := parse_ci_dict_eq fields
            dsimp only at hr
            rw [hr] at this
            simp [hempty] at this
        | arr xs =>
          refine ⟨rfl, ?_⟩
          intro r hr hempty
          rw [Option.some.injEq] at hr
          rw [← hr] at hempty
          dsimp only at hempty
          subst hempty
          exact ⟨rfl, attrs, rfl, hl⟩
        | null => exact ⟨rfl, by intro r hr; simp at hr⟩
        | jbool b => exact ⟨rfl, by intro r hr; simp at hr⟩
        | num q => exact ⟨rfl, by intro r hr; simp at hr⟩
        | str s => exact ⟨rfl, by intro r hr; simp at hr⟩

/-- C7 amended: the period list of the parser's result is exactly what its
sequential strategy locates (`located_periods`): a state payload that
parses as JSON to anything other than `null` must itself be a dict
yielding a non-empty `data`/`data.data` list, and the attributes are not
consulted in that case, even for a non-dict document; when the state is
absent, unparsable or parses to JSON `null` (which `json.loads`
deserializes to Python `None`, so the `data is None` fallback fires), a
non-empty attributes dict is consulted, where a dict under its `data` key
is parsed like a state document and a list under `data` is returned as-is
even when empty. In particular a JSON-`null` state behaves exactly like an
absent state, and every non-null result has a non-empty period list except
those produced by the attributes-list branch for an empty list. -/
theorem ci_parser_spec (state : StateJson) (attributes : Option (List (String × JVal))) :
    ((parse_ci_forecast state attributes).map CIData.periods =
      located_periods state attributes) ∧
    (∀ r, parse_ci_forecast state attributes = some r → r.periods = [] →
      stateDoc state = none ∧ ∃ attrs, attributes = some attrs ∧
        jlookup attrs "data" = some (.arr [])) ∧
    (parse_ci_forecast (.parsed .null) attributes =
      parse_ci_forecast .absent attributes) := by
  have main :
      ((parse_ci_forecast state attributes).map CIData.periods =
        located_periods state attributes) ∧
      (∀ r, parse_ci_forecast state attributes = some r → r.periods = [] →
        stateDoc state = none ∧ ∃ attrs, attributes = some attrs ∧
          jlookup attrs "data" = some (.arr [])) := by
    cases state with
    | absent => exact ci_fallback_aux .absent rfl attributes
    | unparsable => exact ci_fallback_aux .unparsable rfl attributes
    | parsed v =>
      cases v with
      | null => exact ci_fallback_aux (.parsed .null) rfl attributes
      | obj fields =>
        constructor
        · show (parse_ci_dict fields).map CIData.periods = _
          rw [parse_ci_dict_eq]
          rfl
        · intro r hr hempty
          exfalso
          have := parse_ci_dict_eq fields
          rw [show parse_ci_forecast (.parsed (.obj fields)) attributes =
                parse_ci_dict fields from rfl] at hr
          rw [hr] at this
          simp [hempty] at this
      | jbool b => exact ⟨rfl, by intro r hr; simp [parse_ci_forecast, stateDoc] at hr⟩
      | num q => exact ⟨rfl, by intro r hr; simp [parse_ci_forecast, stateDoc] at hr⟩
      | str s => exact ⟨rfl, by intro r hr; simp [parse_ci_forecast, stateDoc] at hr⟩
      | arr xs => exact ⟨rfl, by intro r hr; simp [parse_ci_forecast, stateDoc] at hr⟩
  exact ⟨main.1, main.2, rfl⟩

/-- Witness for `ci_parser_spec`: a state string `"null"` (which parses to
Python `None`) with attributes `{"data": [42]}` is handled by the
attributes fallback exactly as `located_periods` says, and the
empty-list-under-attributes input discharges the non-null-with-empty-
periods implication concretely. -/
theorem ci_parser_spec_witness :
    ((parse_ci_forecast (.parsed .null) (some [("data", JVal.arr [JVal.num 42])])).map
        CIData.periods =
      located_periods (.parsed .null) (some [("data", JVal.arr [JVal.num 42])])) ∧
    (stateDoc .absent = none ∧
      ∃ attrs, (some [("data", JVal.arr [])] : Option (List (String × JVal))) =
        some attrs ∧ jlookup attrs "data" = some (JVal.arr [])) :=
  ⟨(ci_parser_spec (.parsed .null) (some [("data", JVal.arr [JVal.num 42])])).1,
   (ci_parser_spec .absent (some [("data", JVal.arr [])])).2.1 ⟨[], none⟩ rfl rfl⟩

/-- Helper: the greedy discharge loop never allocates more than its
initial budget in total. -/
theorem sumEnergy_greedy_discharge_le (p : ℚ) (l : List FuturePeriod) :
    ∀ rem : ℚ, sumEnergy (greedy_discharge p rem l) ≤ max rem 0 := by
  induction l with
  | nil =>
    intro rem
    simp [greedy_discharge, sumEnergy]
  | cons period rest ih =>
    intro rem
    unfold greedy_discharge
    split
    · simp [sumEnergy]
    · rename_i hrem
      push_neg at hrem
      simp only [sumEnergy, List.map_cons, List.sum_cons]
      have hmin : min (p * (period.duration_minutes / 60)) rem ≤ rem := min_le_right _ _
      have hS := ih (rem - min (p * (period.duration_minutes / 60)) rem)
      rw [max_eq_left (by linarith : (0:ℚ) ≤ rem - min (p * (period.duration_minutes / 60)) rem)]
        at hS
      rw [max_eq_left (le_of_lt hrem)]
      unfold sumEnergy at hS
      linarith

/-- Helper: every window the greedy discharge loop emits keeps its source
period's bounds and intensity, and satisfies the exact energy/duration
relation for a nonzero power. -/
theorem greedy_discharge_mem (p : ℚ) (l : List FuturePeriod) :
    ∀ (rem : ℚ) (w : PlanWindow), w ∈ greedy_discharge p rem l →
      (∃ fp ∈ l, w.fromTime = fp.fromTime ∧ w.toTime = fp.toTime ∧
        w.ci_value = fp.ci_value) ∧
      (p ≠ 0 → w.energy_kwh = p * w.duration_minutes / 60) := by
  induction l with
  | nil =>
    intro rem w hw
    simp [greedy_discharge] at hw
  | cons period rest ih =>
    intro rem w hw
    unfold greedy_discharge at hw
    split at hw
    · simp at hw
    · rcases List.mem_cons.mp hw with hw | hw
      · subst hw
        refine ⟨⟨period, List.mem_cons_self _ _, rfl, rfl, rfl⟩, ?_⟩
        intro hp
        dsimp only
        field_simp
      · obtain ⟨⟨fp, hfp, he⟩, hrel⟩ := ih _ w hw
        exact ⟨⟨fp, List.mem_cons_of_mem _ hfp, he⟩, hrel⟩

/-- Helper: the greedy discharge loop preserves any pairwise relation on
intensity values. -/
theorem greedy_discharge_pairwise (p : ℚ) (R : ℚ → ℚ → Prop) (l : List FuturePeriod) :
    ∀ rem : ℚ,
      List.Pairwise (fun a b : FuturePeriod => R a.ci_value b.ci_value) l →
      List.Pairwise (fun a b : PlanWindow => R a.ci_value b.ci_value)
        (greedy_discharge p rem l) := by
  induction l with
  | nil =>
    intro rem _
    simp [greedy_discharge]
  | cons period rest ih =>
    intro rem hl
    unfold greedy_discharge
    split
    · simp
    · rcases List.pairwise_cons.mp hl with ⟨hhead, hrest⟩
      refine List.pairwise_cons.mpr ⟨?_, ih _ hrest⟩
      intro w hw
      obtain ⟨⟨fp, hfp, _, _, hci⟩, _⟩ := greedy_discharge_mem p rest _ w hw
      rw [hci]
      exact hhead fp hfp

/-- Helper: the greedy charge loop allocates at most its budget plus the
half-thousandth rounding slack per emitted window. -/
theorem sumChargeEnergy_greedy_charge_le (p : ℚ) (l : List ChargePeriod) :
    ∀ rem : ℚ,
      sumChargeEnergy (greedy_charge p rem l) ≤
        max rem 0 + (greedy_charge p rem l).length * (1/2000) := by
  induction l with
  | nil =>
    intro rem
    simp [greedy_charge, sumChargeEnergy]
  | cons period rest ih =>
    intro rem
    unfold greedy_charge
    split
    · simp [sumChargeEnergy]
    · rename_i hrem
      push_neg at hrem
      simp only [sumChargeEnergy, List.map_cons, List.sum_cons, List.length_cons]
      have hmin : min (p * ((period.toTime - period.fromTime) / 60)) rem ≤ rem :=
        min_le_right _ _
      have hround := pyRoundTo_le 3
        (min (p * ((period.toTime - period.fromTime) / 60)) rem)
      have hS := ih (rem - min (p * ((period.toTime - period.fromTime) / 60)) rem)
      rw [max_eq_left
        (by linarith :
          (0:ℚ) ≤ rem - min (p * ((period.toTime - period.fromTime) / 60)) rem)] at hS
      rw [max_eq_left (le_of_lt hrem)]
      unfold sumChargeEnergy at hS
      norm_num at hround ⊢
      linarith

/-- Helper: every window the greedy charge loop emits keeps its source
period's bounds and intensity, and its rounded energy stays within half a
thousandth of the period capacity. -/
theorem greedy_charge_mem (p : ℚ) (l : List ChargePeriod) :
    ∀ (rem : ℚ) (w : ChargeWindow), w ∈ greedy_charge p rem l →
      (∃ cp ∈ l, w.period_start = cp.fromTime ∧ w.period_end = cp.toTime ∧
        w.ci_value = cp.ci) ∧
      w.energy_kwh ≤ p * ((w.period_end - w.period_start) / 60) + 1/2000 := by
  induction l with
  | nil =>
    intro rem w hw
    simp [greedy_charge] at hw
  | cons period rest ih =>
    intro rem w hw
    unfold greedy_charge at hw
    split at hw
    · simp at hw
    · rcases List.mem_cons.mp hw with hw | hw
      · subst hw
        refine ⟨⟨period, List.mem_cons_self _ _, rfl, rfl, rfl⟩, ?_⟩
        dsimp only
        have hround := pyRoundTo_le 3
          (min (p * ((period.toTime - period.fromTime) / 60)) rem)
        have hmin : min (p * ((period.toTime - period.fromTime) / 60)) rem ≤
            p * ((period.toTime - period.fromTime) / 60) := min_le_left _ _
        norm_num at hround ⊢
        linarith
      · obtain ⟨⟨cp, hcp, he⟩, hrel⟩ := ih _ w hw
        exact ⟨⟨cp, List.mem_cons_of_mem _ hcp, he⟩, hrel⟩

/-- Helper: the greedy charge loop preserves any pairwise relation on
intensity values. -/
theorem greedy_charge_pairwise (p : ℚ) (R : ℚ → ℚ → Prop) (l : List ChargePeriod) :
    ∀ rem : ℚ,
      List.Pairwise (fun a b : ChargePeriod => R a.ci b.ci) l →
      List.Pairwise (fun a b : ChargeWindow => R a.ci_value b.ci_value)
        (greedy_charge p rem l) := by
  induction l with
  | nil =>
    intro rem _
    simp [greedy_charge]
  | cons period rest ih =>
    intro rem hl
    unfold greedy_charge
    split
    · simp
    · rcases List.pairwise_cons.mp hl with ⟨hhead, hrest⟩
      refine List.pairwise_cons.mpr ⟨?_, ih _ hrest⟩
      intro w hw
      obtain ⟨⟨cp, hcp, _, _, hci⟩, _⟩ := greedy_charge_mem p rest _ w hw
      rw [hci]
      exact hhead cp hcp

/-- Helper: the stable sort used by the discharge planners
(`sort(key=ci_value, reverse=True)`) yields intensity values in descending
order. -/
theorem mergeSort_sorted_desc (l : List FuturePeriod) :
    List.Pairwise (fun a b : FuturePeriod => b.ci_value ≤ a.ci_value)
      (l.mergeSort (fun a b => decide (b.ci_value ≤ a.ci_value))) := by
  have h := @List.sorted_mergeSort FuturePeriod
    (fun a b => decide (b.ci_value ≤ a.ci_value))
    (fun a b c hab hbc => by
      simp only [decide_eq_true_eq] at *
      exact le_trans hbc hab)
    (fun a b => by
      simp only [Bool.or_eq_true, decide_eq_true_eq]
      exact le_total b.ci_value a.ci_value) l
  exact h.imp (fun h => of_decide_eq_true h)

/-- Helper: the stable sort used by the charge planners
(`sort(key=ci)`) yields intensity values in ascending order. -/
theorem mergeSort_sorted_asc (l : List ChargePeriod) :
    List.Pairwise (fun a b : ChargePeriod => a.ci ≤ b.ci)
      (l.mergeSort (fun a b => decide (a.ci ≤ b.ci))) := by
  have h := @List.sorted_mergeSort ChargePeriod
    (fun a b => decide (a.ci ≤ b.ci))
    (fun a b c hab hbc => by
      simp only [decide_eq_true_eq] at *
      exact le_trans hab hbc)
    (fun a b => by
      simp only [Bool.or_eq_true, decide_eq_true_eq]
      exact le_total a.ci b.ci) l
  exact h.imp (fun h => of_decide_eq_true h)

/-- C9: for every input, the discharge planners emit windows with
intensity values in descending order and the charge planners in ascending
order. -/
theorem planner_sort_order_spec :
    (∀ (now : ℚ) (periods : List RawPeriod) (h p sg sp ws we : ℚ),
      List.Pairwise (fun a b : PlanWindow => b.ci_value ≤ a.ci_value)
        (generate_today_plan now periods h p sg sp ws we)) ∧
    (∀ (now : ℚ) (periods : List RawPeriod) (spt p ws we : ℚ),
      List.Pairwise (fun a b : PlanWindow => b.ci_value ≤ a.ci_value)
        (generate_tomorrow_plan now periods spt p ws we)) ∧
    (∀ (now : ℚ) (periods : List RawPeriod) (soc cutoff p ws we cap : ℚ),
      List.Pairwise (fun a b : ChargeWindow => a.ci_value ≤ b.ci_value)
        (generate_charge_plan_today now periods soc cutoff p ws we cap)) ∧
    (∀ (now : ℚ) (periods : List RawPeriod) (soc p ws we cap : ℚ),
      List.Pairwise (fun a b : ChargeWindow => a.ci_value ≤ b.ci_value)
        (generate_next_charge_session now periods soc p ws we cap)) := by
  refine ⟨?_, ?_, ?_, ?_⟩
  · intro now periods h p sg sp ws we
    unfold generate_today_plan
    split
    · simp
    · exact greedy_discharge_pairwise p (fun x y => y ≤ x) _ _ (mergeSort_sorted_desc _)
  · intro now periods spt p ws we
    unfold generate_tomorrow_plan
    split
    · simp
    · exact greedy_discharge_pairwise p (fun x y => y ≤ x) _ _ (mergeSort_sorted_desc _)
  · intro now periods soc cutoff p ws we cap
    unfold generate_charge_plan_today
    split
    · simp
    · split
      · simp
      · dsimp only
        by_cases he : (100 - soc) / 100 * cap ≤ 0
        · rw [if_pos he]
          simp
        · rw [if_neg he]
          exact greedy_charge_pairwise p (fun x y => x ≤ y) _ _ (mergeSort_sorted_asc _)
  · intro now periods soc p ws we cap
    unfold generate_next_charge_session
    split
    · simp
    · split
      · simp
      · dsimp only
        by_cases he : (100 - soc) / 100 * cap ≤ 0
        · rw [if_pos he]
          simp
        · rw [if_neg he]
          exact greedy_charge_pairwise p (fun x y => x ≤ y) _ _ (mergeSort_sorted_asc _)

/-- Helper: compute `dayOf` on concrete timestamps. -/
theorem dayOf_eq {t : ℚ} {k : ℤ} (h1 : 1440 * (k:ℚ) ≤ t) (h2 : t < 1440 * ((k:ℚ) + 1)) :
    dayOf t = k := by
  unfold dayOf
  rw [Int.floor_eq_iff]
  constructor
  · rw [le_div_iff₀ (by norm_num : (0:ℚ) < 1440)]
    linarith
  · rw [div_lt_iff₀ (by norm_num : (0:ℚ) < 1440)]
    linarith

/-- C1 as stated is false for charge plans: each charge window's
`energy_kwh` is `round(allocated, 3)`, which can round *up*, so the summed
plan energy can exceed the budget. With one half-hour period, battery
capacity 9 kWh and SOC 99.99 % the budget is `0.0009` kWh but the plan
allocates `0.001` kWh. -/
theorem plan_budget_counterexample :
    generate_charge_plan_today 720 [⟨720, 750, 10, "moderate"⟩] (9999/100) 0 3 0 1439 9 =
      [⟨720, 750, 1/1000, 10⟩] ∧
    (100 - 9999/100) / 100 * 9 = (9/10000 : ℚ) ∧
    sumChargeEnergy (generate_charge_plan_today 720 [⟨720, 750, 10, "moderate"⟩]
      (9999/100) 0 3 0 1439 9) = 1/1000 ∧
    (9/10000 : ℚ) < 1/1000 := by
  have hd : dayOf 720 = 0 := dayOf_eq (by norm_num) (by norm_num)
  have hd3 : dayOf 750 = 0 := dayOf_eq (by norm_num) (by norm_num)
  have hf : (9:ℤ).fdiv 10 = 0 := by decide
  have heval : generate_charge_plan_today 720 [⟨720, 750, 10, "moderate"⟩]
      (9999/100) 0 3 0 1439 9 = [⟨720, 750, 1/1000, 10⟩] := by
    unfold generate_charge_plan_today
    rw [if_neg (by norm_num), if_neg (by norm_num)]
    dsimp only
    rw [if_neg (by norm_num)]
    norm_num [List.filterMap, hd, hd3, timeOfDay, List.mergeSort_singleton, greedy_charge,
      pyRoundTo, pyRoundInt, hf]
  refine ⟨heval, by norm_num, ?_, by norm_num⟩
  rw [heval]
  norm_num [sumChargeEnergy]

/-- C1 amended: discharge plans satisfy the budget and per-window bounds
exactly — the summed energy never exceeds the plan's budget (headroom for
the same-day plan, tomorrow's predicted solar for the next-day plan) and
every window's energy equals `power_kw * duration_minutes / 60`; charge
plans round each window's energy to three decimals, so each window's
energy is at most `power_kw * duration_minutes / 60 + 0.0005` and the
summed energy can exceed the budget (the energy needed to reach 100 % SOC)
by at most `0.0005` per emitted window. -/
theorem plan_budget_spec :
    (∀ (now : ℚ) (periods : List RawPeriod) (h p sg sp ws we : ℚ),
      sumEnergy (generate_today_plan now periods h p sg sp ws we) ≤ max h 0 ∧
      ∀ w ∈ generate_today_plan now periods h p sg sp ws we,
        w.energy_kwh = p * w.duration_minutes / 60) ∧
    (∀ (now : ℚ) (periods : List RawPeriod) (spt p ws we : ℚ),
      sumEnergy (generate_tomorrow_plan now periods spt p ws we) ≤ max spt 0 ∧
      ∀ w ∈ generate_tomorrow_plan now periods spt p ws we,
        w.energy_kwh = p * w.duration_minutes / 60) ∧
    (∀ (now : ℚ) (periods : List RawPeriod) (soc cutoff p ws we cap : ℚ),
      sumChargeEnergy (generate_charge_plan_today now periods soc cutoff p ws we cap) ≤
        max ((100 - soc) / 100 * cap) 0 +
          (generate_charge_plan_today now periods soc cutoff p ws we cap).length *
            (1/2000) ∧
      ∀ w ∈ generate_charge_plan_today now periods soc cutoff p ws we cap,
        w.energy_kwh ≤ p * ((w.period_end - w.period_start) / 60) + 1/2000) := by
  refine ⟨?_, ?_, ?_⟩
  · intro now periods h p sg sp ws we
    constructor
    · unfold generate_today_plan
      split
      · simp [sumEnergy]
      · dsimp only
        refine le_trans (sumEnergy_greedy_discharge_le p _ _) ?_
        exact max_le_max (min_le_left _ _) le_rfl
    · intro w hw
      unfold generate_today_plan at hw
      split at hw
      · simp at hw
      · rename_i hguard
        push_neg at hguard
        exact (greedy_discharge_mem p _ _ w hw).2 (ne_of_gt hguard.2.2)
  · intro now periods spt p ws we
    constructor
    · unfold generate_tomorrow_plan
      split
      · simp [sumEnergy]
      · exact sumEnergy_greedy_discharge_le p _ _
    · intro w hw
      unfold generate_tomorrow_plan at hw
      split at hw
      · simp at hw
      · rename_i hguard
        push_neg at hguard
        exact (greedy_discharge_mem p _ _ w hw).2 (ne_of_gt hguard.2.2)
  · intro now periods soc cutoff p ws we cap
    unfold generate_charge_plan_today
    split
    · simp [sumChargeEnergy]
    · split
      · simp [sumChargeEnergy]
      · dsimp only
        by_cases he : (100 - soc) / 100 * cap ≤ 0
        · rw [if_pos he]
          simp [sumChargeEnergy]
        · rw [if_neg he]
          constructor
          · exact sumChargeEnergy_greedy_charge_le p _ _
          · intro w hw
            exact (greedy_charge_mem p _ _ w hw).2

/-- Witness for `plan_budget_spec`: a concrete single-window same-day plan
whose window satisfies the exact energy/duration relation. -/
theorem plan_budget_spec_witness :
    (⟨60, 120, 60, 2, 7, "low"⟩ : PlanWindow).energy_kwh =
      2 * (⟨60, 120, 60, 2, 7, "low"⟩ : PlanWindow).duration_minutes / 60 :=
  (plan_budget_spec.1 60 [⟨60, 120, 7, "low"⟩] 100 2 0 50 0 1439).2
    ⟨60, 120, 60, 2, 7, "low"⟩ (by
      have hd : dayOf 60 = 0 := dayOf_eq (by norm_num) (by norm_num)
      have hd2 : dayOf 120 = 0 := dayOf_eq (by norm_num) (by norm_num)
      unfold generate_today_plan
      rw [if_neg (by norm_num)]
      dsimp only
      norm_num [List.filterMap, hd, hd2, timeOfDay, List.mergeSort_singleton,
        greedy_discharge])

/-- C6 as stated is false: the same-day plan's budget is not the current
headroom. With headroom 10 kWh, one 600-minute period at 1 kW (capacity
10 kWh) and solar readings 1 / 2 kWh, the claim implies a 10 kWh
allocation, but the code caps the budget at
`min(headroom, max(solar_generated, solar_predicted)) = 2` and allocates
only 2 kWh. -/
theorem today_plan_budget_counterexample :
    generate_today_plan 720 [⟨720, 1320, 5, "high"⟩] 10 1 1 2 0 1439 =
      [⟨720, 1320, 120, 2, 5, "high"⟩] ∧
    sumEnergy (generate_today_plan 720 [⟨720, 1320, 5, "high"⟩] 10 1 1 2 0 1439) = 2 ∧
    min (10:ℚ) (1 * (600 / 60)) = 10 ∧ (2:ℚ) < 10 := by
  have hd : dayOf 720 = 0 := dayOf_eq (by norm_num) (by norm_num)
  have hd2 : dayOf 1320 = 0 := dayOf_eq (by norm_num) (by norm_num)
  have heval : generate_today_plan 720 [⟨720, 1320, 5, "high"⟩] 10 1 1 2 0 1439 =
      [⟨720, 1320, 120, 2, 5, "high"⟩] := by
    unfold generate_today_plan
    rw [if_neg (by norm_num)]
    dsimp only
    norm_num [List.filterMap, hd, hd2, timeOfDay, List.mergeSort_singleton,
      greedy_discharge]
  refine ⟨heval, ?_, by norm_num, by norm_num⟩
  rw [heval]
  norm_num [sumEnergy]

/-- C6 amended: the same-day plan's budget is
`min(headroom, max(solar_generated, solar_predicted))` — the summed plan
energy never exceeds it — and partially-elapsed periods are clipped so
that every emitted window starts no earlier than `now`. -/
theorem today_plan_budget_clip_spec (now : ℚ) (periods : List RawPeriod)
    (h p sg sp ws we : ℚ) :
    sumEnergy (generate_today_plan now periods h p sg sp ws we) ≤
      max (min h (max sg sp)) 0 ∧
    ∀ w ∈ generate_today_plan now periods h p sg sp ws we, now ≤ w.fromTime := by
  constructor
  · unfold generate_today_plan
    split
    · simp [sumEnergy]
    · exact sumEnergy_greedy_discharge_le p _ _
  · intro w hw
    unfold generate_today_plan at hw
    split at hw
    · simp at hw
    · obtain ⟨⟨fp, hfp, hfrom, -, -⟩, -⟩ := greedy_discharge_mem p _ _ w hw
      rw [hfrom]
      have hfp' := (List.mergeSort_perm _ _).mem_iff.mp hfp
      obtain ⟨period, hmem, hsome⟩ := List.mem_filterMap.mp hfp'
      dsimp only at hsome
      split_ifs at hsome with h1 h2
      have heq := Option.some.inj hsome
      rw [← heq]
      exact le_max_right _ _

/-- Witness for `today_plan_budget_clip_spec`: in the concrete single-window
plan above, the emitted window indeed starts no earlier than `now`. -/
theorem today_plan_budget_clip_spec_witness :
    (720:ℚ) ≤ (⟨720, 1320, 120, 2, 5, "high"⟩ : PlanWindow).fromTime :=
  (today_plan_budget_clip_spec 720 [⟨720, 1320, 5, "high"⟩] 10 1 1 2 0 1439).2
    ⟨720, 1320, 120, 2, 5, "high"⟩ (by
      have hd : dayOf 720 = 0 := dayOf_eq (by norm_num) (by norm_num)
      have hd2 : dayOf 1320 = 0 := dayOf_eq (by norm_num) (by norm_num)
      unfold generate_today_plan
      rw [if_neg (by norm_num)]
      dsimp only
      norm_num [List.filterMap, hd, hd2, timeOfDay, List.mergeSort_singleton,
        greedy_discharge])

/-- Witness for `auto_stop_spec`: an active session with start export 0,
target 2 kWh and 3 kWh exported stops on this tick. -/
theorem auto_stop_spec_witness :
    should_stop_discharge ⟨true, some 0, some 2⟩ 5 3 false = true :=
  (auto_stop_spec ⟨true, some 0, some 2⟩ 5 3 false).mpr
    ⟨rfl, Or.inr (Or.inl ⟨0, 2, rfl, rfl, by norm_num, by norm_num⟩)⟩

/-- Helper: a same-day plan window's dictionary has no `period_start` key
(its keys are `from`/`to`/`duration_minutes`/`energy_kwh`/`ci_value`/
`ci_index`). -/
theorem todayWindowDict_lookup_period_start (iso : ℚ → String) (w : PlanWindow) :
    (todayWindowDict iso w).lookup "period_start" = none := rfl

/-- Helper: the trigger loop skips every window whose dictionary lacks a
`period_start` key — `window.get("period_start", "")` yields the falsey
empty string, so the loop `continue`s. -/
theorem auto_discharge_loop_none (parseTs : String → Option ℚ) (now : ℚ)
    (today_str : String) (active : Bool) (lw : Option String) :
    ∀ ds : List WDict, (∀ d ∈ ds, d.lookup "period_start" = none) →
      auto_discharge_loop parseTs now today_str active lw ds = none := by
  intro ds
  induction ds with
  | nil => intro _; rfl
  | cons d rest ih =>
    intro hall
    have hd : d.lookup "period_start" = none := hall d (List.mem_cons_self _ _)
    unfold auto_discharge_loop
    simp only [wget, hd, WVal.truthy]
    norm_num
    exact ih (fun x hx => hall x (List.mem_cons_of_mem _ hx))

/-- C5 is contradicted by the code: the auto-discharge trigger reads the
keys `period_start`/`period_end`, but the same-day discharge planner emits
windows keyed `from`/`to`, so `window.get("period_start", "")` is always
the empty string, every window is skipped, and the `IDLE → ACTIVE`
transition never fires — for any plan the planner can produce, any
wall-clock time (in particular inside `[-5 min, 0]` of a window start),
any dedup state and any timestamp parser. (The call site additionally
references an undefined variable `target_export_kwh`.) The spec describes
the behaviour the identically structured, key-consistent charge trigger
implements; for discharge the code is a slip. -/
theorem auto_discharge_trigger_never_fires (parseTs : String → Option ℚ)
    (iso : ℚ → String) (tick_now plan_now : ℚ) (today_str : String) (active : Bool)
    (lw : Option String) (periods : List RawPeriod) (h p sg sp ws we : ℚ) :
    check_and_trigger_auto_discharge parseTs tick_now today_str active lw
      ((generate_today_plan plan_now periods h p sg sp ws we).map (todayWindowDict iso)) =
      none := by
  unfold check_and_trigger_auto_discharge
  split
  · rfl
  · apply auto_discharge_loop_none
    intro d hd
    obtain ⟨w, hw, rfl⟩ := List.mem_map.mp hd
    exact todayWindowDict_lookup_period_start iso w
